import Mathlib

/-!
Verification of the `malefico` Mesos executor driver
(`src/malefico/core/executor.py`, class `MesosExecutorDriver`).

Python dicts are modelled as association lists with unique keys kept in
insertion order; mutation is modelled by explicit state passing.  Random
values (`uuid.uuid4()`), the current time (`time.time()`) and base64
transport (`encode_data`/`decode_data`) are modelled as explicit
parameters respectively identity on the decoded byte strings, since the
model represents a transported token by its decoded content.
-/

namespace Malefico

/-- A JSON-ish scalar value stored in a Python dict field. -/
inductive JVal where
  | str : String → JVal
  | nat : Nat → JVal
  deriving DecidableEq, Repr

/-- Python `dict` modelled as an insertion-ordered association list. -/
abbrev Dict (α : Type) := List (String × α)

/-- Lookup `d[k]` returning `none` when the key is absent (`k in d` test). -/
def dictLookup (k : String) : Dict α → Option α
  | [] => none
  | (k', v) :: rest => if k' = k then some v else dictLookup k rest

/-- Assignment `d[k] = v`: overwrite in place if the key exists, else append
(Python dicts preserve insertion order). -/
def dictSet (k : String) (v : α) : Dict α → Dict α
  | [] => [(k, v)]
  | (k', v') :: rest => if k' = k then (k, v) :: rest else (k', v') :: dictSet k v rest

/-- Python `d.pop(k, None)`: remove the binding of `k` if present, keep order. -/
def dictPop (k : String) : Dict α → Dict α
  | [] => []
  | (k', v) :: rest => if k' = k then rest else (k', v) :: dictPop k rest

/-- The list of keys of a dict, in order. -/
def dictKeys (d : Dict α) : List String := d.map (·.1)

/-- Python `list(d.values())`. -/
def dictValues (d : Dict α) : List α := d.map (·.2)

/-! ### Basic dictionary lemmas -/

theorem dictLookup_eq_none_of_not_mem {α : Type} (k : String) (d : Dict α)
    (h : k ∉ dictKeys d) : dictLookup k d = none := by
  induction d with
  | nil => rfl
  | cons p rest ih =>
    obtain ⟨k', v⟩ := p
    simp only [dictKeys, List.map_cons, List.mem_cons, not_or] at h
    simp only [dictLookup]
    rw [if_neg (fun hh => h.1 hh.symm)]
    exact ih h.2

theorem dictLookup_pop_self {α : Type} (k : String) (d : Dict α)
    (hnd : (dictKeys d).Nodup) : dictLookup k (dictPop k d) = none := by
  induction d with
  | nil => rfl
  | cons p rest ih =>
    obtain ⟨k', v⟩ := p
    simp only [dictKeys, List.map_cons, List.nodup_cons] at hnd
    by_cases h : k' = k
    · subst h
      have hpop : dictPop k' ((k', v) :: rest) = rest := by simp [dictPop]
      rw [hpop]
      exact dictLookup_eq_none_of_not_mem k' rest hnd.1
    · simp only [dictPop, if_neg h, dictLookup]
      exact ih hnd.2

theorem dictLookup_pop_other {α : Type} (k k' : String) (d : Dict α) (hne : k' ≠ k) :
    dictLookup k' (dictPop k d) = dictLookup k' d := by
  induction d with
  | nil => rfl
  | cons p rest ih =>
    obtain ⟨k₀, v⟩ := p
    by_cases h : k₀ = k
    · subst h
      have hpop : dictPop k₀ ((k₀, v) :: rest) = rest := by simp [dictPop]
      rw [hpop]
      simp only [dictLookup]
      rw [if_neg (fun hh => hne hh.symm)]
    · simp only [dictPop, if_neg h, dictLookup]
      by_cases h' : k₀ = k'
      · simp [h']
      · simp only [if_neg h']
        exact ih

theorem dictPop_of_absent {α : Type} (k : String) (d : Dict α)
    (h : dictLookup k d = none) : dictPop k d = d := by
  induction d with
  | nil => rfl
  | cons p rest ih =>
    obtain ⟨k', v⟩ := p
    simp only [dictLookup] at h
    by_cases hk : k' = k
    · rw [if_pos hk] at h
      exact absurd h (by simp)
    · rw [if_neg hk] at h
      simp [dictPop, if_neg hk, ih h]

theorem length_dictPop_le {α : Type} (k : String) (d : Dict α) :
    d.length - 1 ≤ (dictPop k d).length ∧ (dictPop k d).length ≤ d.length := by
  induction d with
  | nil => exact ⟨Nat.le_refl _, Nat.le_refl _⟩
  | cons p rest ih =>
    obtain ⟨k', v⟩ := p
    by_cases h : k' = k
    · simp [dictPop, if_pos h]
    · simp only [dictPop, if_neg h, List.length_cons]
      exact ⟨by omega, by omega⟩

theorem length_dictPop_of_present {α : Type} (k : String) (d : Dict α)
    (h : (dictLookup k d).isSome) : (dictPop k d).length = d.length - 1 := by
  induction d with
  | nil => simp [dictLookup] at h
  | cons p rest ih =>
    obtain ⟨k', v⟩ := p
    by_cases hk : k' = k
    · simp [dictPop, if_pos hk]
    · simp only [dictLookup, if_neg hk] at h
      have hne : rest.length ≠ 0 := by
        intro h0
        rw [List.length_eq_zero.mp h0] at h
        simp [dictLookup] at h
      simp only [dictPop, if_neg hk, List.length_cons, ih h]
      omega

/-! ### Status defaulting (`MesosExecutorDriver.update`, lines 122-129)

```python
if 'timestamp' not in status:
    status['timestamp'] = int(time.time())
if 'uuid' not in status:
    status['uuid'] = encode_data(uuid.uuid4().bytes)
if 'source' not in status:
    status['source'] = 'SOURCE_EXECUTOR'
```
-/

/-- Python `if k not in status: status[k] = v`. -/
def setDefault (k : String) (v : JVal) (d : Dict JVal) : Dict JVal :=
  match dictLookup k d with
  | some _ => d
  | none => dictSet k v d

/-- The default-assignment prefix of `update`: `now` models `int(time.time())`,
`fresh` models `encode_data(uuid.uuid4().bytes)`. -/
def applyDefaults (now : Nat) (fresh : String) (status : Dict JVal) : Dict JVal :=
  setDefault "source" (.str "SOURCE_EXECUTOR")
    (setDefault "uuid" (.str fresh)
      (setDefault "timestamp" (.nat now) status))

theorem dictLookup_dictSet_self {α : Type} (k : String) (v : α) (d : Dict α) :
    dictLookup k (dictSet k v d) = some v := by
  induction d with
  | nil => simp [dictSet, dictLookup]
  | cons p rest ih =>
    obtain ⟨k', v'⟩ := p
    by_cases h : k' = k
    · simp [dictSet, if_pos h, dictLookup]
    · simp [dictSet, if_neg h, dictLookup, if_neg h, ih]

theorem dictLookup_dictSet_other {α : Type} (k k' : String) (v : α) (d : Dict α)
    (hne : k' ≠ k) : dictLookup k' (dictSet k v d) = dictLookup k' d := by
  induction d with
  | nil =>
    simp only [dictSet, dictLookup]
    rw [if_neg (fun hh => hne hh.symm)]
  | cons p rest ih =>
    obtain ⟨k₀, v₀⟩ := p
    by_cases h : k₀ = k
    · subst h
      have hset : dictSet k₀ v ((k₀, v₀) :: rest) = (k₀, v) :: rest := by simp [dictSet]
      rw [hset]
      simp only [dictLookup]
      rw [if_neg (fun hh => hne hh.symm), if_neg (fun hh => hne hh.symm)]
    · simp only [dictSet, if_neg h, dictLookup]
      by_cases h' : k₀ = k'
      · simp [h']
      · simp only [if_neg h']
        exact ih

theorem setDefault_of_present (k : String) (v : JVal) (d : Dict JVal)
    (h : (dictLookup k d).isSome) : setDefault k v d = d := by
  unfold setDefault
  cases hl : dictLookup k d with
  | none => rw [hl] at h; simp at h
  | some w => rfl

theorem dictLookup_setDefault_of_absent (k : String) (v : JVal) (d : Dict JVal)
    (h : dictLookup k d = none) : dictLookup k (setDefault k v d) = some v := by
  unfold setDefault
  rw [h]
  exact dictLookup_dictSet_self k v d

theorem dictLookup_setDefault_other (k k' : String) (v : JVal) (d : Dict JVal)
    (hne : k' ≠ k) : dictLookup k' (setDefault k v d) = dictLookup k' d := by
  unfold setDefault
  cases dictLookup k d with
  | none => exact dictLookup_dictSet_other k k' v d hne
  | some w => rfl

theorem dictLookup_setDefault_isSome (k k' : String) (v : JVal) (d : Dict JVal)
    (h : (dictLookup k' d).isSome) : (dictLookup k' (setDefault k v d)).isSome := by
  by_cases hk : k' = k
  · subst hk
    rw [setDefault_of_present k' v d h]
    exact h
  · rw [dictLookup_setDefault_other k k' v d hk]
    exact h

/-- Fields already present are never changed by the defaulting step. -/
theorem applyDefaults_preserves (now : Nat) (fresh : String) (status : Dict JVal)
    (k : String) (v : JVal) (h : dictLookup k status = some v) :
    dictLookup k (applyDefaults now fresh status) = some v := by
  unfold applyDefaults
  by_cases hts : k = "timestamp"
  · subst hts
    rw [dictLookup_setDefault_other _ _ _ _ (by decide),
        dictLookup_setDefault_other _ _ _ _ (by decide),
        setDefault_of_present _ _ _ (by rw [h]; rfl)]
    exact h
  · by_cases hu : k = "uuid"
    · subst hu
      rw [dictLookup_setDefault_other _ _ _ _ (by decide),
          setDefault_of_present _ _ _
            (by rw [dictLookup_setDefault_other _ _ _ _ hts, h]; rfl)]
      rw [dictLookup_setDefault_other _ _ _ _ hts]
      exact h
    · by_cases hs : k = "source"
      · subst hs
        rw [setDefault_of_present _ _ _
            (by rw [dictLookup_setDefault_other _ _ _ _ (by decide),
                    dictLookup_setDefault_other _ _ _ _ (by decide), h]; rfl),
            dictLookup_setDefault_other _ _ _ _ (by decide),
            dictLookup_setDefault_other _ _ _ _ (by decide)]
        exact h
      · rw [dictLookup_setDefault_other _ _ _ _ hs,
            dictLookup_setDefault_other _ _ _ _ hu,
            dictLookup_setDefault_other _ _ _ _ hts]
        exact h

/-! ### Driver data model (`MesosExecutorDriver.__init__`, lines 33-69) -/

/-- Inbound `executor_info` record; `executor_id` is the identity field the
driver asserts on, the remainder is opaque to the protocol core. -/
structure ExecutorInfo where
  executor_id : String
  rest : String
  deriving DecidableEq, Repr

/-- Inbound `framework_info` record; `id` is the identity field asserted on. -/
structure FrameworkInfo where
  id : String
  rest : String
  deriving DecidableEq, Repr

/-- A `task_info` record; `task_id` models `task_info['task_id']['value']`. -/
structure TaskInfo where
  task_id : String
  rest : String
  deriving DecidableEq, Repr

/-- Payload of a SUBSCRIBED event. -/
structure SubscribedInfo where
  executor_info : ExecutorInfo
  framework_info : FrameworkInfo
  agent_info : String
  deriving DecidableEq, Repr

/-- Payload of an ACKNOWLEDGED event: `task_id` models
`event['task_id']['value']`, `uuid` the transported update token. -/
structure AckEvent where
  task_id : String
  uuid : String
  deriving DecidableEq, Repr

/-- Modelled from the spec: `decode_data` (from `malefico.core.utils`, not in
the sources) is the base64 decoding of `base64-transported` bytes.  The model
represents every transported token by its decoded byte string, under which
decoding is the identity. -/
def decode_data (s : String) : String := s

/-- The message built by `gen_request` (lines 71-80). -/
structure SubscribeMsg where
  mtype : String
  framework_id : String
  executor_id : String
  unacknowledged_tasks : List TaskInfo
  unacknowledged_updates : List (Dict JVal)
  deriving DecidableEq, Repr

/-- The payload built by `update` (lines 131-138). -/
structure UpdateMsg where
  mtype : String
  framework_id : String
  executor_id : String
  status : Dict JVal
  deriving DecidableEq, Repr

/-- Observable effects of a handler: executor-callback invocations, the
forced-kill timer, outbound sends, connection control and warning logs.
`callShutdownAttr` is the invocation of the attribute named `shutdown` on the
executor object (line 180), which is distinct from the `on_shutdown` callback
of the executor interface invoked at line 218 (`callOnShutdown`). -/
inductive Action where
  | callRegistered (e : ExecutorInfo) (f : FrameworkInfo) (agent : String)
  | callReregistered (agent : String)
  | callLaunch (t : TaskInfo)
  | callKill (task_id : String)
  | callMessage (data : String)
  | callError (msg : String)
  | callOnShutdown
  | callShutdownAttr
  | delayKill
  | sendUpdate (p : UpdateMsg)
  | stopConn
  | abortConn
  | logWarn
  deriving DecidableEq, Repr

/-- Python exceptions relevant to the handlers.  All of them are subclasses
of `Exception` and hence caught by `_handle_events`' `except Exception`. -/
inductive PyErr where
  | assertionError
  | callbackError
  | attributeError
  | typeError
  | keyError
  deriving DecidableEq, Repr

/-- The mutable driver attributes relevant to the protocol core.  `localFlag`
models the `local` attribute (`local` is reserved in Lean). -/
structure DriverState where
  framework_id : String
  executor_id : String
  checkpoint : Bool
  localFlag : Bool
  executor_info : Option ExecutorInfo
  framework_info : Option FrameworkInfo
  tasks : Dict TaskInfo
  updates : Dict (Dict JVal)
  deriving DecidableEq, Repr

/-- The user-supplied executor callback object: which callbacks raise when
invoked, and whether the object happens to have an attribute named `shutdown`
in addition to the declared `on_*` callback interface. -/
structure ExecutorImpl where
  on_registered_raises : Bool
  on_reregistered_raises : Bool
  on_launch_raises : Bool
  on_kill_raises : Bool
  on_message_raises : Bool
  on_error_raises : Bool
  on_shutdown_raises : Bool
  has_shutdown_attr : Bool
  shutdown_attr_raises : Bool
  deriving DecidableEq, Repr

/-- Result of running one handler body: the driver state and the effects
produced up to the point where the body returned or raised `err`. -/
structure HResult where
  state : DriverState
  actions : List Action
  err : Option PyErr
  deriving DecidableEq, Repr

/-- An executor callback invocation raises iff the corresponding flag is set. -/
def raiseIf (b : Bool) : Option PyErr :=
  if b then some PyErr.callbackError else none

/-! ### Event handlers (lines 159-219) -/

/-- Handler `on_subscribed` (lines 159-174). -/
def on_subscribed (ex : ExecutorImpl) (s : DriverState) (info : SubscribedInfo) : HResult :=
  if info.executor_info.executor_id ≠ s.executor_id then
    { state := s, actions := [], err := some .assertionError }
  else if info.framework_info.id ≠ s.framework_id then
    { state := s, actions := [], err := some .assertionError }
  else if s.executor_info.isNone || s.framework_info.isNone then
    { state := { s with executor_info := some info.executor_info,
                        framework_info := some info.framework_info },
      actions := [.callRegistered info.executor_info info.framework_info info.agent_info],
      err := raiseIf ex.on_registered_raises }
  else
    { state := s,
      actions := [.callReregistered info.agent_info],
      err := raiseIf ex.on_reregistered_raises }

/-- Handler `on_close` (lines 176-181).  Line 180 reads `self.executor.shutdown(self)`:
the attribute looked up is `shutdown`, so on an executor implementing only the
declared `on_*` interface the lookup raises `AttributeError` and `abort` is
never reached. -/
def on_close (ex : ExecutorImpl) (s : DriverState) : HResult :=
  if !s.checkpoint then
    let kills := if !s.localFlag then [Action.delayKill] else []
    if ex.has_shutdown_attr then
      if ex.shutdown_attr_raises then
        { state := s, actions := kills ++ [.callShutdownAttr], err := some .callbackError }
      else
        { state := s, actions := kills ++ [.callShutdownAttr, .abortConn], err := none }
    else
      { state := s, actions := kills, err := some .attributeError }
  else
    { state := s, actions := [], err := none }

/-- Handler `on_launch` (lines 190-195). -/
def on_launch (ex : ExecutorImpl) (s : DriverState) (task_info : TaskInfo) : HResult :=
  let task_id := task_info.task_id
  if (dictLookup task_id s.tasks).isSome then
    { state := s, actions := [], err := some .assertionError }
  else
    { state := { s with tasks := dictSet task_id task_info s.tasks },
      actions := [.callLaunch task_info],
      err := raiseIf ex.on_launch_raises }

/-- Handler `on_launch_group` (lines 183-188), textually identical to `on_launch`. -/
def on_launch_group (ex : ExecutorImpl) (s : DriverState) (task_info : TaskInfo) : HResult :=
  let task_id := task_info.task_id
  if (dictLookup task_id s.tasks).isSome then
    { state := s, actions := [], err := some .assertionError }
  else
    { state := { s with tasks := dictSet task_id task_info s.tasks },
      actions := [.callLaunch task_info],
      err := raiseIf ex.on_launch_raises }

/-- Handler `on_kill` (lines 197-199). -/
def on_kill (ex : ExecutorImpl) (s : DriverState) (task_id : String) : HResult :=
  { state := s, actions := [.callKill task_id], err := raiseIf ex.on_kill_raises }

/-- Handler `on_acknowledged` (lines 201-205): `self.updates.pop(uuid_, None)` then
`self.tasks.pop(task_id, None)`. -/
def on_acknowledged (s : DriverState) (e : AckEvent) : HResult :=
  let task_id := e.task_id
  let u := decode_data e.uuid
  { state := { s with updates := dictPop u s.updates,
                      tasks := dictPop task_id s.tasks },
    actions := [], err := none }

/-- Handler `on_message` (lines 207-209). -/
def on_message (ex : ExecutorImpl) (s : DriverState) (data : String) : HResult :=
  { state := s, actions := [.callMessage data], err := raiseIf ex.on_message_raises }

/-- Handler `on_error` (lines 211-213). -/
def on_error (ex : ExecutorImpl) (s : DriverState) (msg : String) : HResult :=
  { state := s, actions := [.callError msg], err := raiseIf ex.on_error_raises }

/-- Handler `on_shutdown` (lines 215-219). -/
def on_shutdown (ex : ExecutorImpl) (s : DriverState) : HResult :=
  let kills := if !s.localFlag then [Action.delayKill] else []
  if ex.on_shutdown_raises then
    { state := s, actions := kills ++ [.callOnShutdown], err := some .callbackError }
  else
    { state := s, actions := kills ++ [.callOnShutdown, .stopConn], err := none }

/-! ### Inbound messages and the event dispatcher (`_handle_events`, lines 221-236) -/

/-- An inbound message, tagged as in `message["type"]`.  `unknown tag` models
a message whose type tag carries no payload recognised by the model (for a
tag outside the handler table it is simply an unrecognised message). -/
inductive Message where
  | subscribed (info : SubscribedInfo)
  | message (data : String)
  | launch (task : TaskInfo)
  | launch_group (task : TaskInfo)
  | kill (task_id : String)
  | acknowledged (e : AckEvent)
  | shutdown
  | error (msg : String)
  | close
  | unknown (tag : String)
  deriving DecidableEq, Repr

/-- The tag `message["type"]`. -/
def msgType : Message → String
  | .subscribed _ => "SUBSCRIBED"
  | .message _ => "MESSAGE"
  | .launch _ => "LAUNCH"
  | .launch_group _ => "LAUNCH_GROUP"
  | .kill _ => "KILL"
  | .acknowledged _ => "ACKNOWLEDGED"
  | .shutdown => "SHUTDOWN"
  | .error _ => "ERROR"
  | .close => "CLOSE"
  | .unknown tag => tag

/-- The keys of the `self._handlers` table (lines 59-69). -/
def handlerKeys : List String :=
  ["SUBSCRIBED", "MESSAGE", "LAUNCH", "LAUNCH_GROUP", "KILL",
   "ACKNOWLEDGED", "SHUTDOWN", "ERROR", "CLOSE"]

/-- Evaluation of `self._handlers[_type](message[_type.lower()])`
(resp. `self._handlers[_type]()` for SHUTDOWN), line 228/230.
A CLOSE protocol message would call `on_close(message['close'])`, but
`on_close` accepts no event argument, so the call raises `TypeError`;
an `unknown` message inside the handler table has no payload key, so
`message[_type.lower()]` raises `KeyError`. -/
def runHandler (ex : ExecutorImpl) (s : DriverState) : Message → HResult
  | .subscribed info => on_subscribed ex s info
  | .message data => on_message ex s data
  | .launch task => on_launch ex s task
  | .launch_group task => on_launch_group ex s task
  | .kill task_id => on_kill ex s task_id
  | .acknowledged e => on_acknowledged s e
  | .shutdown => on_shutdown ex s
  | .error msg => on_error ex s msg
  | .close => { state := s, actions := [], err := some .typeError }
  | .unknown _ => { state := s, actions := [], err := some .keyError }

/-- Result of one `_handle_events` invocation: `escaped` is the exception, if
any, propagating out of the coroutine. -/
structure DispatchResult where
  state : DriverState
  actions : List Action
  escaped : Option PyErr
  deriving DecidableEq, Repr

/-- Dispatcher `_handle_events` (lines 221-236): route by type tag, log and drop a
message whose tag is not in the handler table, and catch any `Exception`
raised during handling (`except Exception` at line 234), logging it. -/
def handle_events (ex : ExecutorImpl) (s : DriverState) (m : Message) : DispatchResult :=
  if msgType m ∈ handlerKeys then
    match (runHandler ex s m).err with
    | some _ => { state := (runHandler ex s m).state,
                  actions := (runHandler ex s m).actions ++ [.logWarn], escaped := none }
    | none => { state := (runHandler ex s m).state,
                actions := (runHandler ex s m).actions, escaped := none }
  else
    { state := s, actions := [.logWarn], escaped := none }

/-- Strictly in-order processing of a sequence of inbound messages,
accumulating the produced actions. -/
def runEvents (ex : ExecutorImpl) (s : DriverState) : List Message → DriverState × List Action
  | [] => (s, [])
  | m :: ms =>
    ((runEvents ex (handle_events ex s m).state ms).1,
     (handle_events ex s m).actions ++ (runEvents ex (handle_events ex s m).state ms).2)

/-! ### Outbound request builders -/

/-- Method `gen_request` (lines 71-95), restricted to the SUBSCRIBE payload it
encodes (lines 72-80); the method reads driver state and writes none of it. -/
def gen_request (s : DriverState) : SubscribeMsg :=
  { mtype := "SUBSCRIBE"
    framework_id := s.framework_id
    executor_id := s.executor_id
    unacknowledged_tasks := dictValues s.tasks
    unacknowledged_updates := dictValues s.updates }

/-- Method `update` (lines 119-141): mutate the caller's `status` dict in place with
the three defaults, build the UPDATE payload, hand it to `_send`, then log a
line reading `status["state"]` and `status["task_id"]` (which raises
`KeyError` after the send if either key is missing).  Mutation of `status`
is modelled by returning the dict the caller's reference points to after the
call; the driver state is returned unchanged — the method assigns no driver
attribute, in particular it never writes to `self.updates`. -/
def update (now : Nat) (fresh : String) (s : DriverState) (status : Dict JVal) :
    DriverState × Dict JVal × List Action × Option PyErr :=
  let status' := applyDefaults now fresh status
  let payload : UpdateMsg :=
    { mtype := "UPDATE", framework_id := s.framework_id,
      executor_id := s.executor_id, status := status' }
  let logErr :=
    if (dictLookup "state" status').isSome ∧ (dictLookup "task_id" status').isSome
    then none else some PyErr.keyError
  (s, status', [Action.sendUpdate payload], logErr)

/-! ### Further helper lemmas -/

theorem dictLookup_setDefault_self_isSome (k : String) (v : JVal) (d : Dict JVal) :
    (dictLookup k (setDefault k v d)).isSome := by
  unfold setDefault
  cases hl : dictLookup k d with
  | none => rw [dictLookup_dictSet_self]; rfl
  | some w => rw [hl]; rfl

theorem applyDefaults_timestamp_isSome (now : Nat) (fresh : String) (status : Dict JVal) :
    (dictLookup "timestamp" (applyDefaults now fresh status)).isSome := by
  unfold applyDefaults
  rw [dictLookup_setDefault_other _ _ _ _ (by decide),
      dictLookup_setDefault_other _ _ _ _ (by decide)]
  exact dictLookup_setDefault_self_isSome _ _ _

theorem applyDefaults_uuid_isSome (now : Nat) (fresh : String) (status : Dict JVal) :
    (dictLookup "uuid" (applyDefaults now fresh status)).isSome := by
  unfold applyDefaults
  rw [dictLookup_setDefault_other _ _ _ _ (by decide)]
  exact dictLookup_setDefault_self_isSome _ _ _

theorem applyDefaults_source_isSome (now : Nat) (fresh : String) (status : Dict JVal) :
    (dictLookup "source" (applyDefaults now fresh status)).isSome :=
  dictLookup_setDefault_self_isSome _ _ _

theorem applyDefaults_idem (now now₂ : Nat) (fresh fresh₂ : String) (status : Dict JVal) :
    applyDefaults now₂ fresh₂ (applyDefaults now fresh status)
      = applyDefaults now fresh status := by
  have h1 := applyDefaults_timestamp_isSome now fresh status
  have h2 := applyDefaults_uuid_isSome now fresh status
  have h3 := applyDefaults_source_isSome now fresh status
  set d := applyDefaults now fresh status with hd
  unfold applyDefaults
  rw [setDefault_of_present _ _ _ h1, setDefault_of_present _ _ _ h2,
      setDefault_of_present _ _ _ h3]

theorem applyDefaults_other (now : Nat) (fresh : String) (status : Dict JVal)
    (k : String) (h₁ : k ≠ "timestamp") (h₂ : k ≠ "uuid") (h₃ : k ≠ "source") :
    dictLookup k (applyDefaults now fresh status) = dictLookup k status := by
  unfold applyDefaults
  rw [dictLookup_setDefault_other _ _ _ _ h₃,
      dictLookup_setDefault_other _ _ _ _ h₂,
      dictLookup_setDefault_other _ _ _ _ h₁]

/-! ### Concrete inputs used by the witnesses and counterexamples -/

/-- An executor callback object on which no callback raises and which
implements exactly the declared `on_*` interface. -/
def benignExec : ExecutorImpl :=
  { on_registered_raises := false, on_reregistered_raises := false,
    on_launch_raises := false, on_kill_raises := false,
    on_message_raises := false, on_error_raises := false,
    on_shutdown_raises := false, has_shutdown_attr := false,
    shutdown_attr_raises := false }

/-- An executor callback object whose launch callback raises. -/
def raisingExec : ExecutorImpl :=
  { benignExec with on_launch_raises := true }

/-- A freshly constructed driver: identities from the environment, empty
`tasks` and `updates`, no registration. -/
def freshState : DriverState :=
  { framework_id := "F1", executor_id := "E1", checkpoint := false,
    localFlag := false, executor_info := none, framework_info := none,
    tasks := [], updates := [] }

/-- A driver already tracking task `T1`. -/
def trackingState : DriverState :=
  { freshState with tasks := [("T1", { task_id := "T1", rest := "t1info" })] }

/-- A driver with two pending updates and one tracked task. -/
def loadedState : DriverState :=
  { freshState with
      tasks := [("T1", { task_id := "T1", rest := "t1info" })],
      updates := [("u1", [("task_id", JVal.str "T1"), ("state", JVal.str "TASK_RUNNING")]),
                  ("u2", [("task_id", JVal.str "T1"), ("state", JVal.str "TASK_FINISHED")])] }

/-! ### Dispatcher characterisation lemmas -/

theorem handle_events_unknown (ex : ExecutorImpl) (s : DriverState) (m : Message)
    (hm : msgType m ∉ handlerKeys) :
    handle_events ex s m = { state := s, actions := [Action.logWarn], escaped := none } := by
  unfold handle_events
  rw [if_neg hm]

theorem handle_events_err (ex : ExecutorImpl) (s : DriverState) (m : Message)
    (hm : msgType m ∈ handlerKeys) (he : (runHandler ex s m).err.isSome) :
    handle_events ex s m =
      { state := (runHandler ex s m).state,
        actions := (runHandler ex s m).actions ++ [Action.logWarn],
        escaped := none } := by
  unfold handle_events
  rw [if_pos hm]
  cases hE : (runHandler ex s m).err with
  | none => rw [hE] at he; simp at he
  | some e => rfl

theorem handle_events_ok (ex : ExecutorImpl) (s : DriverState) (m : Message)
    (hm : msgType m ∈ handlerKeys) (he : (runHandler ex s m).err = none) :
    handle_events ex s m =
      { state := (runHandler ex s m).state,
        actions := (runHandler ex s m).actions,
        escaped := none } := by
  unfold handle_events
  rw [if_pos hm]
  cases hE : (runHandler ex s m).err with
  | none => rfl
  | some e => rw [hE] at he; exact absurd he (by simp)

theorem handle_events_escaped_none (ex : ExecutorImpl) (s : DriverState) (m : Message) :
    (handle_events ex s m).escaped = none := by
  unfold handle_events
  by_cases hm : msgType m ∈ handlerKeys
  · rw [if_pos hm]
    cases (runHandler ex s m).err <;> rfl
  · rw [if_neg hm]

/-! ### Subscription handling lemmas (towards C6) -/

/-- The identity assertions of `on_subscribed` (lines 163-164) hold. -/
def matchesIdentity (s : DriverState) (info : SubscribedInfo) : Prop :=
  info.executor_info.executor_id = s.executor_id ∧ info.framework_info.id = s.framework_id

/-- Whether an action is an invocation of the `on_registered` callback. -/
def isRegisteredCall : Action → Bool
  | .callRegistered _ _ _ => true
  | _ => false

/-- Whether an action is an invocation of the `on_reregistered` callback. -/
def isReregisteredCall : Action → Bool
  | .callReregistered _ => true
  | _ => false

theorem on_subscribed_fresh (ex : ExecutorImpl) (s : DriverState) (info : SubscribedInfo)
    (hm : matchesIdentity s info)
    (hf : s.executor_info = none ∨ s.framework_info = none) :
    on_subscribed ex s info =
      { state := { s with executor_info := some info.executor_info,
                          framework_info := some info.framework_info },
        actions := [.callRegistered info.executor_info info.framework_info info.agent_info],
        err := raiseIf ex.on_registered_raises } := by
  unfold on_subscribed
  rw [if_neg (not_not_intro hm.1), if_neg (not_not_intro hm.2),
      if_pos (by rcases hf with h | h <;> simp [h])]

theorem on_subscribed_present (ex : ExecutorImpl) (s : DriverState) (info : SubscribedInfo)
    (a : ExecutorInfo) (b : FrameworkInfo) (hm : matchesIdentity s info)
    (hea : s.executor_info = some a) (hfb : s.framework_info = some b) :
    on_subscribed ex s info =
      { state := s, actions := [.callReregistered info.agent_info],
        err := raiseIf ex.on_reregistered_raises } := by
  unfold on_subscribed
  rw [if_neg (not_not_intro hm.1), if_neg (not_not_intro hm.2),
      if_neg (by simp [hea, hfb])]

theorem handle_subscribed_fresh (ex : ExecutorImpl) (s : DriverState) (info : SubscribedInfo)
    (hm : matchesIdentity s info)
    (hf : s.executor_info = none ∨ s.framework_info = none) :
    (handle_events ex s (Message.subscribed info)).state
      = { s with executor_info := some info.executor_info,
                 framework_info := some info.framework_info } ∧
    (handle_events ex s (Message.subscribed info)).actions.countP
      (fun a => isRegisteredCall a) = 1 ∧
    (handle_events ex s (Message.subscribed info)).actions.countP
      (fun a => isReregisteredCall a) = 0 := by
  have hk : msgType (Message.subscribed info) ∈ handlerKeys := by
    simp [msgType, handlerKeys]
  have hrun : runHandler ex s (Message.subscribed info) = on_subscribed ex s info := rfl
  by_cases hr : ex.on_registered_raises = true
  · rw [handle_events_err ex s _ hk
      (by rw [hrun, on_subscribed_fresh ex s info hm hf]; simp [raiseIf, hr])]
    rw [hrun, on_subscribed_fresh ex s info hm hf]
    refine ⟨rfl, ?_, ?_⟩ <;>
      simp [List.countP_append, List.countP_cons, isRegisteredCall, isReregisteredCall]
  · have hr' : ex.on_registered_raises = false := by
      cases hb : ex.on_registered_raises
      · rfl
      · exact absurd hb hr
    rw [handle_events_ok ex s _ hk
      (by rw [hrun, on_subscribed_fresh ex s info hm hf]; simp [raiseIf, hr'])]
    rw [hrun, on_subscribed_fresh ex s info hm hf]
    refine ⟨rfl, ?_, ?_⟩ <;>
      simp [List.countP_cons, isRegisteredCall, isReregisteredCall]

theorem handle_subscribed_present (ex : ExecutorImpl) (s : DriverState)
    (info : SubscribedInfo) (a : ExecutorInfo) (b : FrameworkInfo)
    (hm : matchesIdentity s info)
    (hea : s.executor_info = some a) (hfb : s.framework_info = some b) :
    (handle_events ex s (Message.subscribed info)).state = s ∧
    (handle_events ex s (Message.subscribed info)).actions.countP
      (fun a => isRegisteredCall a) = 0 ∧
    (handle_events ex s (Message.subscribed info)).actions.countP
      (fun a => isReregisteredCall a) = 1 := by
  have hk : msgType (Message.subscribed info) ∈ handlerKeys := by
    simp [msgType, handlerKeys]
  have hrun : runHandler ex s (Message.subscribed info) = on_subscribed ex s info := rfl
  by_cases hr : ex.on_reregistered_raises = true
  · rw [handle_events_err ex s _ hk
      (by rw [hrun, on_subscribed_present ex s info a b hm hea hfb]; simp [raiseIf, hr])]
    rw [hrun, on_subscribed_present ex s info a b hm hea hfb]
    refine ⟨rfl, ?_, ?_⟩ <;>
      simp [List.countP_append, List.countP_cons, isRegisteredCall, isReregisteredCall]
  · have hr' : ex.on_reregistered_raises = false := by
      cases hb : ex.on_reregistered_raises
      · rfl
      · exact absurd hb hr
    rw [handle_events_ok ex s _ hk
      (by rw [hrun, on_subscribed_present ex s info a b hm hea hfb]; simp [raiseIf, hr'])]
    rw [hrun, on_subscribed_present ex s info a b hm hea hfb]
    refine ⟨rfl, ?_, ?_⟩ <;>
      simp [List.countP_cons, isRegisteredCall, isReregisteredCall]

theorem runEvents_subscribed_present (ex : ExecutorImpl) (infos : List SubscribedInfo) :
    ∀ (s : DriverState) (a : ExecutorInfo) (b : FrameworkInfo),
      s.executor_info = some a → s.framework_info = some b →
      (∀ i ∈ infos, matchesIdentity s i) →
      (runEvents ex s (infos.map Message.subscribed)).1 = s ∧
      (runEvents ex s (infos.map Message.subscribed)).2.countP
        (fun a => isRegisteredCall a) = 0 ∧
      (runEvents ex s (infos.map Message.subscribed)).2.countP
        (fun a => isReregisteredCall a) = infos.length := by
  induction infos with
  | nil => exact fun s a b _ _ _ => ⟨rfl, rfl, rfl⟩
  | cons i is ih =>
    intro s a b hea hfb hm
    have hstep := handle_subscribed_present ex s i a b (hm i (by simp)) hea hfb
    have hrest := ih (handle_events ex s (Message.subscribed i)).state a b
      (by rw [hstep.1]; exact hea) (by rw [hstep.1]; exact hfb)
      (by rw [hstep.1]; exact fun j hj => hm j (List.mem_cons_of_mem i hj))
    simp only [List.map_cons, runEvents, List.countP_append]
    rw [hstep.1] at hrest ⊢
    exact ⟨hrest.1, by rw [hstep.2.1, hrest.2.1], by rw [hstep.2.2, hrest.2.2]; simp only [List.length_cons]; omega⟩

/-! ## Claim theorems -/

/-- A status dict as a caller would pass it: the required fields only, none
of the defaulted fields present. -/
def statusNoDefaults : Dict JVal :=
  [("task_id", JVal.str "T1"), ("state", JVal.str "TASK_RUNNING")]

/-- A SUBSCRIBED payload matching `freshState`'s identity. -/
def subInfo1 : SubscribedInfo :=
  { executor_info := { executor_id := "E1", rest := "einfo" },
    framework_info := { id := "F1", rest := "finfo" },
    agent_info := "agent1" }

/-- A second SUBSCRIBED payload with the same identity, as delivered on
reconnection. -/
def subInfo2 : SubscribedInfo :=
  { executor_info := { executor_id := "E1", rest := "einfo2" },
    framework_info := { id := "F1", rest := "finfo2" },
    agent_info := "agent2" }

/-- The acknowledgment for pending update `u1` of task `T1`. -/
def ack0 : AckEvent := { task_id := "T1", uuid := "u1" }

/-- C1: refuted — `update` builds and sends the UPDATE message but contains
no write to `self.updates`: the driver state after the call is identical to
the one before, so the status is never stored in the PendingUpdate
collection and a subsequent SUBSCRIBE replays nothing for it.  The method
pops from and replays `self.updates` elsewhere (lines 78, 204), so the
missing insertion contradicts the code's own bookkeeping: a code bug. -/
theorem c1_update_never_stores_pending (now : Nat) (fresh : String)
    (s : DriverState) (status : Dict JVal) :
    (update now fresh s status).1 = s ∧
    (gen_request (update now fresh s status).1).unacknowledged_updates
      = (gen_request s).unacknowledged_updates ∧
    (update now fresh s status).1.updates.length = s.updates.length :=
  ⟨rfl, rfl, rfl⟩

/-- C2 counterexample: with task `T1` already tracked, dispatching a LAUNCH
for `T1` through `_handle_events` does not fail fast: the `AssertionError`
raised by `on_launch` is caught by the `except Exception` clause (line 234),
no exception escapes the dispatcher, and it returns normally (with the
tracked state unchanged), contradicting the claim that the fatal
protocol-violation path is triggered. -/
theorem c2_dispatch_duplicate_launch_not_fatal :
    (handle_events benignExec trackingState
      (Message.launch { task_id := "T1", rest := "dup" })).escaped = none ∧
    (handle_events benignExec trackingState
      (Message.launch { task_id := "T1", rest := "dup" })).state = trackingState := by
  constructor <;> rfl

/-- C2 amended: a duplicate LAUNCH or LAUNCH_GROUP makes the handler raise an
`AssertionError` before any state change — the existing Task entry is not
overwritten and the launch callback is not invoked — but the dispatcher
catches and logs the exception, so the process does not fail fast and event
processing continues. -/
theorem c2_duplicate_launch_asserts_and_is_caught (ex : ExecutorImpl)
    (s : DriverState) (t : TaskInfo)
    (h : (dictLookup t.task_id s.tasks).isSome) :
    on_launch ex s t
      = { state := s, actions := [], err := some PyErr.assertionError } ∧
    on_launch_group ex s t
      = { state := s, actions := [], err := some PyErr.assertionError } ∧
    handle_events ex s (Message.launch t)
      = { state := s, actions := [Action.logWarn], escaped := none } ∧
    handle_events ex s (Message.launch_group t)
      = { state := s, actions := [Action.logWarn], escaped := none } := by
  have h1 : on_launch ex s t
      = { state := s, actions := [], err := some PyErr.assertionError } := by
    unfold on_launch
    rw [if_pos h]
  have h2 : on_launch_group ex s t
      = { state := s, actions := [], err := some PyErr.assertionError } := by
    unfold on_launch_group
    rw [if_pos h]
  have hr1 : runHandler ex s (Message.launch t) = on_launch ex s t := rfl
  have hr2 : runHandler ex s (Message.launch_group t) = on_launch_group ex s t := rfl
  refine ⟨h1, h2, ?_, ?_⟩
  · rw [handle_events_err ex s _ (by simp [msgType, handlerKeys])
        (by rw [hr1, h1]; rfl)]
    rw [hr1, h1]
    rfl
  · rw [handle_events_err ex s _ (by simp [msgType, handlerKeys])
        (by rw [hr2, h2]; rfl)]
    rw [hr2, h2]
    rfl

/-- Witness for the amended C2 theorem at a concrete duplicate launch. -/
theorem c2_duplicate_launch_asserts_and_is_caught_witness :
    (dictLookup "T1" trackingState.tasks).isSome ∧
    (on_launch raisingExec trackingState { task_id := "T1", rest := "dup2" }
        = { state := trackingState, actions := [], err := some PyErr.assertionError } ∧
     on_launch_group raisingExec trackingState { task_id := "T1", rest := "dup2" }
        = { state := trackingState, actions := [], err := some PyErr.assertionError } ∧
     handle_events raisingExec trackingState
        (Message.launch { task_id := "T1", rest := "dup2" })
        = { state := trackingState, actions := [Action.logWarn], escaped := none } ∧
     handle_events raisingExec trackingState
        (Message.launch_group { task_id := "T1", rest := "dup2" })
        = { state := trackingState, actions := [Action.logWarn], escaped := none }) :=
  ⟨rfl, c2_duplicate_launch_asserts_and_is_caught raisingExec trackingState
          { task_id := "T1", rest := "dup2" } rfl⟩

/-- C3: `gen_request` builds a SUBSCRIBE message carrying the local framework
and executor identity and exactly one record per entry of the `updates` and
`tasks` collections; it is a pure function of the driver state (it assigns no
attribute), so neither collection is modified. -/
theorem c3_gen_request_replays_all_pending (s : DriverState) (N M : Nat)
    (hU : s.updates.length = N) (hT : s.tasks.length = M) :
    (gen_request s).mtype = "SUBSCRIBE" ∧
    (gen_request s).framework_id = s.framework_id ∧
    (gen_request s).executor_id = s.executor_id ∧
    (gen_request s).unacknowledged_updates.length = N ∧
    (gen_request s).unacknowledged_tasks.length = M := by
  refine ⟨rfl, rfl, rfl, ?_, ?_⟩
  · rw [← hU]
    simp [gen_request, dictValues]
  · rw [← hT]
    simp [gen_request, dictValues]

/-- Witness for C3 at `loadedState` (two pending updates, one tracked task). -/
theorem c3_gen_request_replays_all_pending_witness :
    loadedState.updates.length = 2 ∧ loadedState.tasks.length = 1 ∧
    ((gen_request loadedState).mtype = "SUBSCRIBE" ∧
     (gen_request loadedState).framework_id = loadedState.framework_id ∧
     (gen_request loadedState).executor_id = loadedState.executor_id ∧
     (gen_request loadedState).unacknowledged_updates.length = 2 ∧
     (gen_request loadedState).unacknowledged_tasks.length = 1) :=
  ⟨rfl, rfl, c3_gen_request_replays_all_pending loadedState 2 1 rfl rfl⟩

/-- C4: refuted — on a transport CLOSE with `checkpoint = false` and
`local = false`, `on_close` arms the forced-kill timer but then evaluates
`self.executor.shutdown(self)` (line 180): the attribute invoked is
`shutdown`, never the `on_shutdown` callback of the declared executor
interface (invoked as such at line 218).  On an executor implementing only
the declared `on_*` interface the lookup raises `AttributeError`, so the
shutdown callback is not invoked at all and `abort()` is never reached. -/
theorem c4_close_invokes_wrong_callback :
    on_close benignExec freshState
      = { state := freshState, actions := [Action.delayKill],
          err := some PyErr.attributeError } ∧
    ∀ (ex : ExecutorImpl) (s : DriverState),
      Action.callOnShutdown ∉ (on_close ex s).actions := by
  constructor
  · rfl
  · intro ex s
    cases hc : s.checkpoint <;> cases hl : s.localFlag <;>
      cases ha : ex.has_shutdown_attr <;> cases hr : ex.shutdown_attr_raises <;>
        simp [on_close, hc, hl, ha, hr]

/-- C5: `on_acknowledged` removes at most one entry from each collection —
the pending update keyed by the decoded token and the task keyed by the
event's task id; an absent key leaves the corresponding collection exactly
as it was (idempotent no-op), every other key's binding is unaffected, and
no other driver state (registration, identity) changes. -/
theorem c5_acknowledged_removes_at_most_one (s : DriverState) (e : AckEvent)
    (k₁ k₂ : String) (hk₁ : k₁ ≠ decode_data e.uuid) (hk₂ : k₂ ≠ e.task_id)
    (hnd₁ : (dictKeys s.updates).Nodup) (hnd₂ : (dictKeys s.tasks).Nodup) :
    (s.updates.length - 1 ≤ (on_acknowledged s e).state.updates.length ∧
      (on_acknowledged s e).state.updates.length ≤ s.updates.length) ∧
    (s.tasks.length - 1 ≤ (on_acknowledged s e).state.tasks.length ∧
      (on_acknowledged s e).state.tasks.length ≤ s.tasks.length) ∧
    (dictLookup (decode_data e.uuid) s.updates = none →
      (on_acknowledged s e).state.updates = s.updates) ∧
    (dictLookup e.task_id s.tasks = none →
      (on_acknowledged s e).state.tasks = s.tasks) ∧
    dictLookup k₁ (on_acknowledged s e).state.updates = dictLookup k₁ s.updates ∧
    dictLookup k₂ (on_acknowledged s e).state.tasks = dictLookup k₂ s.tasks ∧
    dictLookup (decode_data e.uuid) (on_acknowledged s e).state.updates = none ∧
    dictLookup e.task_id (on_acknowledged s e).state.tasks = none ∧
    (on_acknowledged s e).state.executor_info = s.executor_info ∧
    (on_acknowledged s e).state.framework_info = s.framework_info ∧
    (on_acknowledged s e).actions = [] ∧
    (on_acknowledged s e).err = none :=
  ⟨length_dictPop_le _ _,
   length_dictPop_le _ _,
   fun h => dictPop_of_absent _ _ h,
   fun h => dictPop_of_absent _ _ h,
   dictLookup_pop_other _ _ _ hk₁,
   dictLookup_pop_other _ _ _ hk₂,
   dictLookup_pop_self _ _ hnd₁,
   dictLookup_pop_self _ _ hnd₂,
   rfl, rfl, rfl, rfl⟩

/-- Witness for C5: acknowledging `u1`/`T1` on `loadedState` removes exactly
that pending update and that task and leaves the other update untouched. -/
theorem c5_acknowledged_removes_at_most_one_witness :
    "u2" ≠ decode_data ack0.uuid ∧ "T9" ≠ ack0.task_id ∧
    (dictKeys loadedState.updates).Nodup ∧ (dictKeys loadedState.tasks).Nodup ∧
    dictLookup "u1" (on_acknowledged loadedState ack0).state.updates = none ∧
    dictLookup "T1" (on_acknowledged loadedState ack0).state.tasks = none ∧
    dictLookup "u2" (on_acknowledged loadedState ack0).state.updates
      = dictLookup "u2" loadedState.updates := by
  have h := c5_acknowledged_removes_at_most_one loadedState ack0 "u2" "T9"
    (by decide) (by decide) (by decide) (by decide)
  exact ⟨by decide, by decide, by decide, by decide,
         h.2.2.2.2.2.2.1, h.2.2.2.2.2.2.2.1, h.2.2.2.2.1⟩

/-- C6: starting from an unregistered driver, a sequence of SUBSCRIBED events
whose identity fields match the local identity invokes the `on_registered`
callback exactly once (on the first event, which stores the registration
info), invokes `on_reregistered` once per subsequent event, and the stored
identity fields remain those of the first event. -/
theorem c6_registered_once_then_reregistered (ex : ExecutorImpl) (s : DriverState)
    (info : SubscribedInfo) (infos : List SubscribedInfo)
    (hf : s.executor_info = none) (_hf' : s.framework_info = none)
    (hm : ∀ i ∈ info :: infos, matchesIdentity s i) :
    (runEvents ex s ((info :: infos).map Message.subscribed)).1.executor_info
      = some info.executor_info ∧
    (runEvents ex s ((info :: infos).map Message.subscribed)).1.framework_info
      = some info.framework_info ∧
    (runEvents ex s ((info :: infos).map Message.subscribed)).1.executor_id
      = s.executor_id ∧
    (runEvents ex s ((info :: infos).map Message.subscribed)).1.framework_id
      = s.framework_id ∧
    (runEvents ex s ((info :: infos).map Message.subscribed)).2.countP
      (fun a => isRegisteredCall a) = 1 ∧
    (runEvents ex s ((info :: infos).map Message.subscribed)).2.countP
      (fun a => isReregisteredCall a) = infos.length := by
  have hstep := handle_subscribed_fresh ex s info (hm info (by simp)) (Or.inl hf)
  have hm₁ : ∀ i ∈ infos,
      matchesIdentity { s with executor_info := some info.executor_info,
                               framework_info := some info.framework_info } i :=
    fun i hi => hm i (List.mem_cons_of_mem _ hi)
  have hrest := runEvents_subscribed_present ex infos
    { s with executor_info := some info.executor_info,
             framework_info := some info.framework_info }
    info.executor_info info.framework_info rfl rfl hm₁
  simp only [List.map_cons, runEvents, List.countP_append]
  rw [hstep.1]
  refine ⟨?_, ?_, ?_, ?_, ?_, ?_⟩
  · rw [hrest.1]
  · rw [hrest.1]
  · rw [hrest.1]
  · rw [hrest.1]
  · rw [hstep.2.1, hrest.2.1]
  · rw [hstep.2.2, hrest.2.2]
    omega

/-- Witness for C6: two matching SUBSCRIBED events on a fresh driver fire
`on_registered` once and `on_reregistered` once. -/
theorem c6_registered_once_then_reregistered_witness :
    (runEvents benignExec freshState
        ([subInfo1, subInfo2].map Message.subscribed)).1.executor_info
      = some subInfo1.executor_info ∧
    (runEvents benignExec freshState
        ([subInfo1, subInfo2].map Message.subscribed)).1.framework_info
      = some subInfo1.framework_info ∧
    (runEvents benignExec freshState
        ([subInfo1, subInfo2].map Message.subscribed)).1.executor_id
      = freshState.executor_id ∧
    (runEvents benignExec freshState
        ([subInfo1, subInfo2].map Message.subscribed)).1.framework_id
      = freshState.framework_id ∧
    (runEvents benignExec freshState
        ([subInfo1, subInfo2].map Message.subscribed)).2.countP
      (fun a => isRegisteredCall a) = 1 ∧
    (runEvents benignExec freshState
        ([subInfo1, subInfo2].map Message.subscribed)).2.countP
      (fun a => isReregisteredCall a) = [subInfo2].length :=
  c6_registered_once_then_reregistered benignExec freshState subInfo1 [subInfo2]
    rfl rfl
    (by intro i hi
        simp only [List.mem_cons, List.not_mem_nil, or_false] at hi
        rcases hi with rfl | rfl
        · exact ⟨rfl, rfl⟩
        · exact ⟨rfl, rfl⟩)

/-- C7: the default-assignment step of `update` assigns exactly the missing
fields among `timestamp`, `uuid` and `source` (to the current time, the
fresh token and `SOURCE_EXECUTOR` respectively), never changes a field that
is already present, leaves every other key's binding untouched, and is
idempotent: a second application changes nothing. -/
theorem c7_defaulting_idempotent (now now₂ : Nat) (fresh fresh₂ : String)
    (status : Dict JVal) (k k' : String) (v : JVal)
    (hkv : dictLookup k status = some v)
    (h₁ : k' ≠ "timestamp") (h₂ : k' ≠ "uuid") (h₃ : k' ≠ "source") :
    dictLookup k (applyDefaults now fresh status) = some v ∧
    dictLookup k' (applyDefaults now fresh status) = dictLookup k' status ∧
    (dictLookup "timestamp" status = none →
      dictLookup "timestamp" (applyDefaults now fresh status) = some (JVal.nat now)) ∧
    (dictLookup "uuid" status = none →
      dictLookup "uuid" (applyDefaults now fresh status) = some (JVal.str fresh)) ∧
    (dictLookup "source" status = none →
      dictLookup "source" (applyDefaults now fresh status)
        = some (JVal.str "SOURCE_EXECUTOR")) ∧
    applyDefaults now₂ fresh₂ (applyDefaults now fresh status)
      = applyDefaults now fresh status := by
  refine ⟨applyDefaults_preserves now fresh status k v hkv,
          applyDefaults_other now fresh status k' h₁ h₂ h₃, ?_, ?_, ?_,
          applyDefaults_idem now now₂ fresh fresh₂ status⟩
  · intro h
    unfold applyDefaults
    rw [dictLookup_setDefault_other _ _ _ _ (by decide),
        dictLookup_setDefault_other _ _ _ _ (by decide)]
    exact dictLookup_setDefault_of_absent _ _ _ h
  · intro h
    unfold applyDefaults
    rw [dictLookup_setDefault_other _ _ _ _ (by decide)]
    exact dictLookup_setDefault_of_absent _ _ _
      (by rw [dictLookup_setDefault_other _ _ _ _ (by decide)]; exact h)
  · intro h
    unfold applyDefaults
    exact dictLookup_setDefault_of_absent _ _ _
      (by rw [dictLookup_setDefault_other _ _ _ _ (by decide),
              dictLookup_setDefault_other _ _ _ _ (by decide)]; exact h)

/-- Witness for C7 on a status carrying only `task_id` and `state`. -/
theorem c7_defaulting_idempotent_witness :
    dictLookup "task_id" statusNoDefaults = some (JVal.str "T1") ∧
    (dictLookup "task_id" (applyDefaults 100 "tok" statusNoDefaults)
        = some (JVal.str "T1") ∧
     dictLookup "extra" (applyDefaults 100 "tok" statusNoDefaults)
        = dictLookup "extra" statusNoDefaults ∧
     (dictLookup "timestamp" statusNoDefaults = none →
       dictLookup "timestamp" (applyDefaults 100 "tok" statusNoDefaults)
         = some (JVal.nat 100)) ∧
     (dictLookup "uuid" statusNoDefaults = none →
       dictLookup "uuid" (applyDefaults 100 "tok" statusNoDefaults)
         = some (JVal.str "tok")) ∧
     (dictLookup "source" statusNoDefaults = none →
       dictLookup "source" (applyDefaults 100 "tok" statusNoDefaults)
         = some (JVal.str "SOURCE_EXECUTOR")) ∧
     applyDefaults 200 "tok2" (applyDefaults 100 "tok" statusNoDefaults)
       = applyDefaults 100 "tok" statusNoDefaults) :=
  ⟨rfl, c7_defaulting_idempotent 100 200 "tok" "tok2" statusNoDefaults
          "task_id" "extra" (JVal.str "T1") rfl
          (by decide) (by decide) (by decide)⟩

/-- C8: the dispatcher never lets an exception escape (`escaped = none` for
every message and executor behaviour); a message whose type tag is not in
the handler table is logged and dropped with no state change; and when a
handler raises, the dispatcher logs a warning after the handler's effects
and carries on. -/
theorem c8_dispatcher_isolation (ex : ExecutorImpl) (s : DriverState) (m : Message) :
    (handle_events ex s m).escaped = none ∧
    (msgType m ∉ handlerKeys →
      (handle_events ex s m).state = s ∧
      (handle_events ex s m).actions = [Action.logWarn]) ∧
    (msgType m ∈ handlerKeys → (runHandler ex s m).err.isSome →
      (handle_events ex s m).state = (runHandler ex s m).state ∧
      (handle_events ex s m).actions
        = (runHandler ex s m).actions ++ [Action.logWarn]) := by
  refine ⟨handle_events_escaped_none ex s m, fun hm => ?_, fun hm he => ?_⟩
  · rw [handle_events_unknown ex s m hm]
    exact ⟨rfl, rfl⟩
  · rw [handle_events_err ex s m hm he]
    exact ⟨rfl, rfl⟩

/-- Witness for C8: an unknown HEARTBEAT message is dropped without state
change, and a launch whose callback raises is logged without escaping. -/
theorem c8_dispatcher_isolation_witness :
    (handle_events benignExec freshState (Message.unknown "HEARTBEAT")).escaped
      = none ∧
    (handle_events benignExec freshState (Message.unknown "HEARTBEAT")).state
      = freshState ∧
    (handle_events benignExec freshState (Message.unknown "HEARTBEAT")).actions
      = [Action.logWarn] ∧
    (handle_events raisingExec freshState
        (Message.launch { task_id := "T2", rest := "t2" })).escaped = none ∧
    (handle_events raisingExec freshState
        (Message.launch { task_id := "T2", rest := "t2" })).actions
      = (runHandler raisingExec freshState
          (Message.launch { task_id := "T2", rest := "t2" })).actions
        ++ [Action.logWarn] :=
  ⟨(c8_dispatcher_isolation benignExec freshState (Message.unknown "HEARTBEAT")).1,
   ((c8_dispatcher_isolation benignExec freshState
      (Message.unknown "HEARTBEAT")).2.1 (by decide)).1,
   ((c8_dispatcher_isolation benignExec freshState
      (Message.unknown "HEARTBEAT")).2.1 (by decide)).2,
   (c8_dispatcher_isolation raisingExec freshState
      (Message.launch { task_id := "T2", rest := "t2" })).1,
   ((c8_dispatcher_isolation raisingExec freshState
      (Message.launch { task_id := "T2", rest := "t2" })).2.2 (by decide) rfl).2⟩

/-- C9: `on_kill` invokes the executor's kill callback with the event's task
id and returns the driver state unchanged: tasks, pending updates and
registration are all exactly as before the event. -/
theorem c9_kill_leaves_state_unchanged (ex : ExecutorImpl) (s : DriverState)
    (task_id : String) :
    (on_kill ex s task_id).state = s ∧
    (on_kill ex s task_id).actions = [Action.callKill task_id] :=
  ⟨rfl, rfl⟩

/-- C10: `update` mutates the caller's status dict in place (modelled by the
returned dict, which is what the caller's reference denotes after the call):
after the call the dict is exactly the defaulted status — `timestamp`,
`uuid` and `source` are present, every field the caller had set is
unchanged — the driver state is untouched and the sent payload embeds that
same dict. -/
theorem c10_update_mutates_status_in_place (now : Nat) (fresh : String)
    (s : DriverState) (status : Dict JVal) (k : String) (v : JVal)
    (hkv : dictLookup k status = some v) :
    (update now fresh s status).2.1 = applyDefaults now fresh status ∧
    dictLookup k (update now fresh s status).2.1 = some v ∧
    (dictLookup "timestamp" (update now fresh s status).2.1).isSome ∧
    (dictLookup "uuid" (update now fresh s status).2.1).isSome ∧
    (dictLookup "source" (update now fresh s status).2.1).isSome ∧
    (update now fresh s status).1 = s ∧
    (update now fresh s status).2.2.1
      = [Action.sendUpdate
          { mtype := "UPDATE", framework_id := s.framework_id,
            executor_id := s.executor_id,
            status := (update now fresh s status).2.1 }] :=
  ⟨rfl, applyDefaults_preserves now fresh status k v hkv,
   applyDefaults_timestamp_isSome now fresh status,
   applyDefaults_uuid_isSome now fresh status,
   applyDefaults_source_isSome now fresh status, rfl, rfl⟩

/-- Witness for C10 on a status carrying only `task_id` and `state`. -/
theorem c10_update_mutates_status_in_place_witness :
    dictLookup "state" statusNoDefaults = some (JVal.str "TASK_RUNNING") ∧
    ((update 7 "tk" freshState statusNoDefaults).2.1
        = applyDefaults 7 "tk" statusNoDefaults ∧
     dictLookup "state" (update 7 "tk" freshState statusNoDefaults).2.1
        = some (JVal.str "TASK_RUNNING") ∧
     (dictLookup "timestamp" (update 7 "tk" freshState statusNoDefaults).2.1).isSome ∧
     (dictLookup "uuid" (update 7 "tk" freshState statusNoDefaults).2.1).isSome ∧
     (dictLookup "source" (update 7 "tk" freshState statusNoDefaults).2.1).isSome ∧
     (update 7 "tk" freshState statusNoDefaults).1 = freshState ∧
     (update 7 "tk" freshState statusNoDefaults).2.2.1
        = [Action.sendUpdate
            { mtype := "UPDATE", framework_id := freshState.framework_id,
              executor_id := freshState.executor_id,
              status := (update 7 "tk" freshState statusNoDefaults).2.1 }]) :=
  ⟨rfl, c10_update_mutates_status_in_place 7 "tk" freshState statusNoDefaults
          "state" (JVal.str "TASK_RUNNING") rfl⟩

end Malefico

